import Mathlib

/-!
Shallow embedding of the embedding-generation core of the vigil repository
(`scripts/setup/generate-embeddings.py`, with the duplicate `pseudo_vector`
from `scripts/setup/seed-reference-data.py`), together with proofs of the
specification claims about it.

Modelling conventions:
* Python machine integers are `Nat` (all quantities here are non-negative);
  32-bit wraparound in SHA-256 is explicit `% 2^32`.
* Python floats are modelled as real numbers `ℝ` where exactness matters for
  the claims (vector components), and as rationals `ℚ` for back-off delays.
* `random.Random(seed).gauss(0, 0.1)` is a deterministic sequence of draws
  once the seed is fixed; it is abstracted as a parameter
  `gauss : Nat → Nat → ℝ` (`gauss seed k` = the k-th draw of a generator
  seeded with `seed`).  `random.random()` jitter draws are abstracted as
  `jitter : Nat → ℚ` with `jitter attempt` the draw before retry `attempt+1`.
* Remote HTTP provider calls are abstracted as an oracle
  `List String → Nat → Except HTTPError (List (List ℝ))`: for a chunk of
  texts and an attempt index, either a list of vectors or an HTTP failure.
* Fallible Python code (`raise`) is `Except`; a Python function that can
  fall off the end returning `None` is `Option`.
-/

namespace Vigil

/-! ## Python string primitives (ASCII fragment)

`str.lower` / `str.strip` as used by `EmbeddingGenerator.__init__`; only the
ASCII behaviour is modelled (the provider names involved are ASCII). -/

def pyIsSpace (c : Char) : Bool :=
  c = ' ' || c = '\t' || c = '\n' || c = '\r' || c = Char.ofNat 11 || c = Char.ofNat 12

def pyToLowerChar (c : Char) : Char :=
  if 'A' ≤ c && c ≤ 'Z' then Char.ofNat (c.toNat + 32) else c

def pyLower (s : String) : String :=
  ⟨s.data.map pyToLowerChar⟩

def pyStrip (s : String) : String :=
  ⟨((s.data.dropWhile pyIsSpace).reverse.dropWhile pyIsSpace).reverse⟩

/-- Python truthiness of an optional string (`os.getenv` result):
`None` and `""` are falsy, every other string is truthy. -/
def pyTruthy : Option String → Bool
  | none => false
  | some s => !(s == "")

/-- UTF-8 encoding of one code point (`str.encode`). -/
def utf8Char (c : Char) : List Nat :=
  let n := c.toNat
  if n < 0x80 then [n]
  else if n < 0x800 then
    [0xC0 ||| (n >>> 6), 0x80 ||| (n &&& 0x3F)]
  else if n < 0x10000 then
    [0xE0 ||| (n >>> 12), 0x80 ||| ((n >>> 6) &&& 0x3F), 0x80 ||| (n &&& 0x3F)]
  else
    [0xF0 ||| (n >>> 18), 0x80 ||| ((n >>> 12) &&& 0x3F),
     0x80 ||| ((n >>> 6) &&& 0x3F), 0x80 ||| (n &&& 0x3F)]

/-- UTF-8 encoding of a string (`text.encode()`), as a list of byte values. -/
def utf8Bytes (s : String) : List Nat :=
  s.data.flatMap utf8Char

/-! ## SHA-256 (`hashlib.sha256`)

Full implementation over byte lists, 32-bit words as `Nat % 2^32`. -/

namespace SHA256

def w32 (x : Nat) : Nat := x % 2 ^ 32

def rotr (n x : Nat) : Nat := w32 ((x >>> n) ||| (x <<< (32 - n)))

def bnot (x : Nat) : Nat := 0xffffffff ^^^ x

def bsig0 (x : Nat) : Nat := rotr 2 x ^^^ rotr 13 x ^^^ rotr 22 x

def bsig1 (x : Nat) : Nat := rotr 6 x ^^^ rotr 11 x ^^^ rotr 25 x

def ssig0 (x : Nat) : Nat := rotr 7 x ^^^ rotr 18 x ^^^ (x >>> 3)

def ssig1 (x : Nat) : Nat := rotr 17 x ^^^ rotr 19 x ^^^ (x >>> 10)

def ch (x y z : Nat) : Nat := (x &&& y) ^^^ (bnot x &&& z)

def maj (x y z : Nat) : Nat := (x &&& y) ^^^ (x &&& z) ^^^ (y &&& z)

/-- The 64 round constants of FIPS 180-4, written in decimal. -/
def K : List Nat :=
  [1116352408, 1899447441, 3049323471, 3921009573, 961987163,
   1508970993, 2453635748, 2870763221, 3624381080, 310598401,
   607225278, 1426881987, 1925078388, 2162078206, 2614888103,
   3248222580, 3835390401, 4022224774, 264347078, 604807628,
   770255983, 1249150122, 1555081692, 1996064986, 2554220882,
   2821834349, 2952996808, 3210313671, 3336571891, 3584528711,
   113926993, 338241895, 666307205, 773529912, 1294757372,
   1396182291, 1695183700, 1986661051, 2177026350, 2456956037,
   2730485921, 2820302411, 3259730800, 3345764771, 3516065817,
   3600352804, 4094571909, 275423344, 430227734, 506948616,
   659060556, 883997877, 958139571, 1322822218, 1537002063,
   1747873779, 1955562222, 2024104815, 2227730452, 2361852424,
   2428436474, 2756734187, 3204031479, 3329325298]

/-- The eight initial hash words of FIPS 180-4, written in decimal. -/
def H0 : List Nat :=
  [1779033703, 3144134277, 1013904242, 2773480762,
   1359893119, 2600822924, 528734635, 1541459225]

/-- Big-endian 64-bit byte encoding (of the bit length, for padding). -/
def be64 (n : Nat) : List Nat :=
  [(n >>> 56) % 256, (n >>> 48) % 256, (n >>> 40) % 256, (n >>> 32) % 256,
   (n >>> 24) % 256, (n >>> 16) % 256, (n >>> 8) % 256, n % 256]

/-- Big-endian 32-bit byte encoding (of one digest word). -/
def be32 (w : Nat) : List Nat :=
  [(w >>> 24) % 256, (w >>> 16) % 256, (w >>> 8) % 256, w % 256]

/-- SHA-256 padding: append 0x80, zeros to 56 mod 64, then the 64-bit
big-endian bit length. -/
def pad (msg : List Nat) : List Nat :=
  let L := msg.length
  let zeros := (64 - (L + 9) % 64) % 64
  msg ++ [0x80] ++ List.replicate zeros 0 ++ be64 (8 * L)

/-- Four big-endian bytes to one 32-bit word. -/
def wordOfBytes (bs : List Nat) : Nat :=
  bs.foldl (fun acc b => acc * 256 + b) 0

/-- Split into chunks of `k` elements (fuel-based so it reduces in the
kernel); used for 64-byte blocks and 4-byte words here. -/
def chunksFuel (k : Nat) : Nat → List α → List (List α)
  | 0, _ => []
  | _, [] => []
  | fuel + 1, xs =>
    if k == 0 then [] else xs.take k :: chunksFuel k fuel (xs.drop k)

def chunks (k : Nat) (xs : List α) : List (List α) :=
  chunksFuel k xs.length xs

/-- Extend a 16-word block schedule to 64 words (fuel-based structural
recursion so it reduces in the kernel; 64 steps always suffice). -/
def extendFuel : Nat → List Nat → List Nat
  | 0, ws => ws
  | fuel + 1, ws =>
    if 64 ≤ ws.length then ws
    else
      extendFuel fuel (ws ++ [w32 (ssig1 (ws.getD (ws.length - 2) 0) +
                                   ws.getD (ws.length - 7) 0 +
                                   ssig0 (ws.getD (ws.length - 15) 0) +
                                   ws.getD (ws.length - 16) 0)])

def extendTo64 (ws : List Nat) : List Nat :=
  extendFuel 64 ws

/-- One compression round on the state `[a,b,c,d,e,f,g,h]`. -/
def round (k w : Nat) (st : List Nat) : List Nat :=
  match st with
  | [a, b, c, d, e, f, g, h] =>
    let t1 := w32 (h + bsig1 e + ch e f g + k + w)
    let t2 := w32 (bsig0 a + maj a b c)
    [w32 (t1 + t2), a, b, c, w32 (d + t1), e, f, g]
  | st => st

/-- Compress one 64-byte block into the running hash state. -/
def compressBlock (hs : List Nat) (block : List Nat) : List Nat :=
  let ws := extendTo64 ((chunks 4 block).map wordOfBytes)
  let st := (K.zip ws).foldl (fun st kw => round kw.1 kw.2 st) hs
  List.zipWith (fun a b => w32 (a + b)) hs st

/-- SHA-256 digest of a byte list, as the list of 32 digest bytes. -/
def digestBytes (msg : List Nat) : List Nat :=
  ((chunks 64 (pad msg)).foldl compressBlock H0).flatMap be32

end SHA256

/-! ## Hex digest and `int(_, 16)` (`hexdigest` route used by the source) -/

def hexChar (n : Nat) : Char :=
  if n < 10 then Char.ofNat (48 + n) else Char.ofNat (87 + n)

/-- The method `hexdigest()` of `hashlib`: lowercase hex string of the digest bytes. -/
def hexdigest (bytes : List Nat) : String :=
  ⟨bytes.flatMap (fun b => [hexChar (b / 16), hexChar (b % 16)])⟩

def hexVal (c : Char) : Nat :=
  if '0' ≤ c && c ≤ '9' then c.toNat - 48
  else if 'a' ≤ c && c ≤ 'f' then c.toNat - 87
  else if 'A' ≤ c && c ≤ 'F' then c.toNat - 55
  else 0

/-- Python `int(s, 16)` on a hex string. -/
def parseHex (s : String) : Nat :=
  s.data.foldl (fun acc c => acc * 16 + hexVal c) 0

/-- A byte list read as one big-endian integer ("the hash digest as a big
integer", as the spec phrases it). -/
def natOfBytes (bytes : List Nat) : Nat :=
  bytes.foldl (fun acc b => acc * 256 + b) 0

/-- Sum of squares, `sum(v * v for v in vec)`. -/
def sumSquares (l : List ℝ) : ℝ :=
  (l.map (fun v => v * v)).sum

/-! ## `generate-embeddings.py` -/

namespace GenEmb

/-- The seed `int(hashlib.sha256(text.encode()).hexdigest(), 16) % (2**32)`. -/
def pseudoSeed (text : String) : Nat :=
  parseHex (hexdigest (SHA256.digestBytes (utf8Bytes text))) % 2 ^ 32

/-- Function `pseudo_vector(text, dims=384)` of `generate-embeddings.py`:
seed from SHA-256, `dims` Gaussian draws, L2-normalise via `math.sqrt`.
`gauss seed k` abstracts the k-th draw of `random.Random(seed).gauss(0, 0.1)`. -/
noncomputable def pseudo_vector (gauss : Nat → Nat → ℝ) (text : String)
    (dims : Nat := 384) : List ℝ :=
  let seed := pseudoSeed text
  let vec := (List.range dims).map (fun k => gauss seed k)
  let norm := Real.sqrt (sumSquares vec)
  vec.map (fun v => v / norm)

end GenEmb

/-! ## `seed-reference-data.py` -/

namespace SeedRef

/-- Function `pseudo_vector(text, dims=1024)` of `seed-reference-data.py`: identical
except the default `dims` and the norm written `sum(...) ** 0.5`. -/
noncomputable def pseudo_vector (gauss : Nat → Nat → ℝ) (text : String)
    (dims : Nat := 1024) : List ℝ :=
  let seed := GenEmb.pseudoSeed text
  let vec := (List.range dims).map (fun k => gauss seed k)
  let norm := (sumSquares vec) ^ ((1 : ℝ) / 2)
  vec.map (fun v => v / norm)

end SeedRef

namespace GenEmb

/-! ## Constants and configuration (`generate-embeddings.py` top level) -/

/-- The table `BATCH_LIMITS` mapping elastic to 10, openai to 100 and
cohere to 96, as an association list. -/
def BATCH_LIMITS : List (String × Nat) :=
  [("elastic", 10), ("openai", 100), ("cohere", 96)]

def MAX_RETRIES : Nat := 3

/-- The constant `BASE_DELAY_S = 0.5`, delays modelled in ℚ. -/
def BASE_DELAY_S : ℚ := 1 / 2

/-- The lookup `BATCH_LIMITS.get(provider, 10)`. -/
def limitFor (p : String) : Nat :=
  match BATCH_LIMITS.find? (fun kv => kv.1 == p) with
  | some kv => kv.2
  | none => 10

/-- The environment variables `__init__` reads (`os.getenv` results;
`none` = variable unset). -/
structure Env where
  embeddingProvider : Option String := none
  elasticUrl : Option String := none
  elasticApiKey : Option String := none
  openaiApiKey : Option String := none
  cohereApiKey : Option String := none
deriving DecidableEq

/-- The state a successfully constructed `EmbeddingGenerator` holds.
Credential attributes are set only on the branch that reads them, hence
`Option` with `none` default. -/
structure Generator where
  provider : String
  usePseudo : Bool
  elasticUrl : Option String := none
  elasticApiKey : Option String := none
  openaiApiKey : Option String := none
  cohereApiKey : Option String := none
deriving DecidableEq

def elasticMissingMsg : String :=
  "Elastic provider requires ELASTIC_URL and ELASTIC_API_KEY"

def openaiMissingMsg : String :=
  "OpenAI provider requires OPENAI_API_KEY"

def cohereMissingMsg : String :=
  "Cohere provider requires COHERE_API_KEY"

def unknownProviderMsg (p : String) : String :=
  "Unknown provider \"" ++ p ++ "\". Supported: elastic, openai, cohere"

/-- The effective provider name:
`(provider or os.getenv("EMBEDDING_PROVIDER", "")).lower().strip()`. -/
def effProvider (providerArg : Option String) (env : Env) : String :=
  let raw :=
    match providerArg with
    | some s => if s == "" then env.embeddingProvider.getD "" else s
    | none => env.embeddingProvider.getD ""
  pyStrip (pyLower raw)

/-- Constructor `EmbeddingGenerator.__init__`: validates the provider selection and
credentials; `.error` models the raised `ValueError`. -/
def initGenerator (providerArg : Option String) (env : Env) :
    Except String Generator :=
  let p := effProvider providerArg env
  if p == "" then
    .ok { provider := p, usePseudo := true }
  else if p == "elastic" then
    if !pyTruthy env.elasticUrl || !pyTruthy env.elasticApiKey then
      .error elasticMissingMsg
    else
      .ok { provider := p, usePseudo := false,
            elasticUrl := env.elasticUrl, elasticApiKey := env.elasticApiKey }
  else if p == "openai" then
    if !pyTruthy env.openaiApiKey then
      .error openaiMissingMsg
    else
      .ok { provider := p, usePseudo := false, openaiApiKey := env.openaiApiKey }
  else if p == "cohere" then
    if !pyTruthy env.cohereApiKey then
      .error cohereMissingMsg
    else
      .ok { provider := p, usePseudo := false, cohereApiKey := env.cohereApiKey }
  else
    .error (unknownProviderMsg p)

/-! ## Provider calls, retry, batching

A remote call either returns vectors or raises `urllib.error.HTTPError`,
which carries a status code. -/

structure HTTPError where
  code : Nat
deriving DecidableEq

/-- The three-way dispatch of `_call_provider` on the provider name; the
adapters themselves do network I/O and are abstract parameters. `none`
models the implicit `return None` fall-through. -/
def callProviderDispatch (p : String) (embedElastic embedOpenai embedCohere :
    List String → α) (texts : List String) : Option α :=
  if p == "elastic" then some (embedElastic texts)
  else if p == "openai" then some (embedOpenai texts)
  else if p == "cohere" then some (embedCohere texts)
  else none

/-- The classification `retryable = e.code == 429 or (500 <= e.code < 600)`. -/
def retryable (e : HTTPError) : Bool :=
  e.code == 429 || (500 ≤ e.code && e.code < 600)

/-- Observable outcome of `_call_with_retry`: the returned value or raised
error (`none` = the `for` loop fell through, the implicit `None` of Python),
the back-off sleeps performed, and how many provider calls were made. -/
structure RetryTrace (α : Type) where
  result : Option (Except HTTPError α)
  sleeps : List ℚ
  calls : Nat

/-- The `for attempt in range(max_retries + 1)` loop of `_call_with_retry`.
`f attempt` is the outcome of the provider call on that attempt; `fuel` is
the number of loop iterations left (`maxRetries + 1` at entry). -/
def retryLoop (maxRetries : Nat) (f : Nat → Except HTTPError α)
    (jitter : Nat → ℚ) : Nat → Nat → RetryTrace α
  | _, 0 => ⟨none, [], 0⟩
  | attempt, fuel + 1 =>
    match f attempt with
    | .ok v => ⟨some (.ok v), [], 1⟩
    | .error e =>
      if attempt == maxRetries || !retryable e then
        ⟨some (.error e), [], 1⟩
      else
        let delay := BASE_DELAY_S * 2 ^ attempt + jitter attempt * BASE_DELAY_S
        let r := retryLoop maxRetries f jitter (attempt + 1) fuel
        ⟨r.result, delay :: r.sleeps, r.calls + 1⟩

/-- Entry point `_call_with_retry(texts)` with the per-attempt call outcomes `f`. -/
def callWithRetry (maxRetries : Nat) (f : Nat → Except HTTPError α)
    (jitter : Nat → ℚ) : RetryTrace α :=
  retryLoop maxRetries f jitter 0 (maxRetries + 1)

/-- The loop `for i in range(0, len(texts), limit): chunk = texts[i : i + limit]`:
the contiguous chunks of the input, fuel-based so it reduces in the kernel
(`texts.length` steps always suffice since `limit ≥ 1` in the program;
`limit = 0` would make the Python `range` raise, modelled as no chunks). -/
def chunkFuel (limit : Nat) : Nat → List α → List (List α)
  | 0, _ => []
  | _, [] => []
  | fuel + 1, texts =>
    if limit == 0 then [] else texts.take limit :: chunkFuel limit fuel (texts.drop limit)

def chunkList (limit : Nat) (texts : List α) : List (List α) :=
  chunkFuel limit texts.length texts

/-- Observable outcome of a batch: final result, the chunks actually passed
to the provider, the sleeps performed and total provider calls. -/
structure BatchTrace where
  result : Option (Except HTTPError (List (List ℝ)))
  chunksIssued : List (List String)
  sleeps : List ℚ
  calls : Nat

/-- The chunk loop body of `generate_batch`: call each chunk through
`_call_with_retry` in order, extending `all_embeddings`; a raise aborts
the whole batch. -/
def batchGo (oracle : List String → Nat → Except HTTPError (List (List ℝ)))
    (jitter : Nat → ℚ) : List (List String) → BatchTrace
  | [] => ⟨some (.ok []), [], [], 0⟩
  | c :: cs =>
    let t := callWithRetry MAX_RETRIES (oracle c) jitter
    match t.result with
    | some (.ok vs) =>
      let r := batchGo oracle jitter cs
      ⟨r.result.map (Except.map (fun ws => vs ++ ws)),
       c :: r.chunksIssued, t.sleeps ++ r.sleeps, t.calls + r.calls⟩
    | some (.error e) => ⟨some (.error e), [c], t.sleeps, t.calls⟩
    | none => ⟨none, [c], t.sleeps, t.calls⟩

/-- Method `generate_batch(texts)`: empty input short-circuits; pseudo mode maps
`pseudo_vector` (default dims); provider mode chunks by the batch limit of
the active provider and issues retry-wrapped calls. -/
noncomputable def generate_batch (gen : Generator) (gauss : Nat → Nat → ℝ)
    (oracle : List String → Nat → Except HTTPError (List (List ℝ)))
    (jitter : Nat → ℚ) (texts : List String) : BatchTrace :=
  if texts.isEmpty then ⟨some (.ok []), [], [], 0⟩
  else if gen.usePseudo then
    ⟨some (.ok (texts.map (fun t => pseudo_vector gauss t))), [], [], 0⟩
  else
    batchGo oracle jitter (chunkList (limitFor gen.provider) texts)

/-- Observable outcome of `generate`: `.ok none` models the `IndexError`
of `[0]` on an empty provider result. -/
structure SingleTrace where
  result : Except HTTPError (Option (List ℝ))
  chunksIssued : List (List String)
  sleeps : List ℚ
  calls : Nat

/-- Method `generate(text)`: pseudo mode calls `pseudo_vector` directly; provider
mode calls `_call_provider([text])[0]` once, with no retry wrapper. -/
noncomputable def generate (gen : Generator) (gauss : Nat → Nat → ℝ)
    (oracle : List String → Nat → Except HTTPError (List (List ℝ)))
    (text : String) : SingleTrace :=
  if gen.usePseudo then
    ⟨.ok (some (pseudo_vector gauss text)), [], [], 0⟩
  else
    match oracle [text] 0 with
    | .ok vs => ⟨.ok vs[0]?, [[text]], [], 1⟩
    | .error e => ⟨.error e, [[text]], [], 1⟩

end GenEmb

/-! ## Helper lemmas -/

namespace GenEmb

theorem chunkFuel_nil (limit : Nat) (fuel : Nat) :
    chunkFuel limit fuel ([] : List α) = [] := by
  cases fuel <;> rfl

theorem chunkFuel_congr (limit : Nat) :
    ∀ (f1 f2 : Nat) (xs : List α), xs.length ≤ f1 → xs.length ≤ f2 →
      chunkFuel limit f1 xs = chunkFuel limit f2 xs := by
  intro f1
  induction f1 with
  | zero =>
    intro f2 xs h1 _
    have : xs = [] := List.length_eq_zero.mp (Nat.le_zero.mp h1)
    subst this
    rw [chunkFuel_nil, chunkFuel_nil]
  | succ f1 ih =>
    intro f2 xs h1 h2
    cases xs with
    | nil => rw [chunkFuel_nil, chunkFuel_nil]
    | cons a t =>
      cases f2 with
      | zero => simp at h2
      | succ f2 =>
        by_cases hl : limit == 0
        · simp only [chunkFuel, hl, if_true]
        · simp only [chunkFuel, hl, if_false, Bool.false_eq_true]
          have hl' : limit ≠ 0 := by simpa using hl
          have hd : ((a :: t).drop limit).length ≤ f1 := by
            rw [List.length_drop]; simp at h1 ⊢; omega
          have hd2 : ((a :: t).drop limit).length ≤ f2 := by
            rw [List.length_drop]; simp at h2 ⊢; omega
          rw [ih f2 _ hd hd2]

theorem chunkList_cons (limit : Nat) (hl : limit ≠ 0) (a : α) (t : List α) :
    chunkList limit (a :: t) =
      (a :: t).take limit :: chunkList limit ((a :: t).drop limit) := by
  show chunkFuel limit (a :: t).length (a :: t) = _
  have : (a :: t).length = t.length + 1 := rfl
  rw [this]
  simp only [chunkFuel, show (limit == 0) = false by simpa using hl, if_false,
    Bool.false_eq_true]
  congr 1
  exact chunkFuel_congr limit t.length _ _
    (by rw [List.length_drop]; simp; omega) le_rfl

theorem chunkList_flatten (limit : Nat) (hl : 0 < limit) (xs : List α) :
    (chunkList limit xs).flatten = xs := by
  have H : ∀ (n : Nat) (xs : List α), xs.length ≤ n →
      (chunkList limit xs).flatten = xs := by
    intro n
    induction n with
    | zero =>
      intro xs h
      have : xs = [] := List.length_eq_zero.mp (Nat.le_zero.mp h)
      subst this
      rfl
    | succ n ih =>
      intro xs h
      cases xs with
      | nil => rfl
      | cons a t =>
        rw [chunkList_cons limit (by omega) a t, List.flatten_cons,
          ih _ (by rw [List.length_drop]; simp at h ⊢; omega),
          List.take_append_drop]
  exact H xs.length xs le_rfl

theorem chunkList_mem_length (limit : Nat) {xs : List α} {c : List α}
    (hc : c ∈ chunkList limit xs) : c.length ≤ limit := by
  have H : ∀ (fuel : Nat) (xs : List α), c ∈ chunkFuel limit fuel xs →
      c.length ≤ limit := by
    intro fuel
    induction fuel with
    | zero => intro xs h; simp [chunkFuel] at h
    | succ fuel ih =>
      intro xs h
      cases xs with
      | nil => simp [chunkFuel_nil] at h
      | cons a t =>
        by_cases hl : limit == 0
        · simp [chunkFuel, hl] at h
        · simp only [chunkFuel, hl, if_false, Bool.false_eq_true,
            List.mem_cons] at h
          rcases h with h | h
          · subst h; rw [List.length_take]; exact min_le_left _ _
          · exact ih _ h
  exact H _ _ hc

theorem chunkList_singleton (limit : Nat) (hl : 0 < limit) (t : α) :
    chunkList limit [t] = [[t]] := by
  show chunkFuel limit 1 [t] = [[t]]
  simp only [chunkFuel, show (limit == 0) = false by simp; omega, if_false,
    Bool.false_eq_true]
  rw [List.take_of_length_le (by simp; omega)]

theorem retryable_iff (e : HTTPError) :
    retryable e = true ↔ e.code = 429 ∨ (500 ≤ e.code ∧ e.code < 600) := by
  simp [retryable]

theorem retryLoop_isSome (mr : Nat) (f : Nat → Except HTTPError α)
    (j : Nat → ℚ) :
    ∀ (fuel attempt : Nat), attempt + fuel = mr + 1 → attempt ≤ mr →
      ((retryLoop mr f j attempt fuel).result).isSome = true := by
  intro fuel
  induction fuel with
  | zero => intro attempt h1 h2; omega
  | succ fuel ih =>
    intro attempt h1 h2
    simp only [retryLoop]
    cases hf : f attempt with
    | ok v => simp
    | error e =>
      by_cases hcond : (attempt == mr || !retryable e) = true
      · simp [hcond]
      · simp only [hcond, if_false, Bool.false_eq_true]
        have hne : attempt ≠ mr := by
          intro hEq
          apply hcond
          simp [hEq]
        exact ih (attempt + 1) (by omega) (by omega)

theorem callWithRetry_isSome (mr : Nat) (f : Nat → Except HTTPError α)
    (j : Nat → ℚ) : ((callWithRetry mr f j).result).isSome = true :=
  retryLoop_isSome mr f j (mr + 1) 0 (by omega) (by omega)

theorem retryLoop_ok_exists (mr : Nat) (f : Nat → Except HTTPError α)
    (j : Nat → ℚ) :
    ∀ (fuel attempt : Nat) (v : α),
      (retryLoop mr f j attempt fuel).result = some (.ok v) →
      ∃ n, f n = .ok v := by
  intro fuel
  induction fuel with
  | zero => intro attempt v h; simp [retryLoop] at h
  | succ fuel ih =>
    intro attempt v h
    simp only [retryLoop] at h
    cases hf : f attempt with
    | ok w =>
      rw [hf] at h
      simp at h
      exact ⟨attempt, by rw [hf, h]⟩
    | error e =>
      rw [hf] at h
      by_cases hcond : (attempt == mr || !retryable e) = true
      · simp [hcond] at h
      · simp only [hcond, if_false, Bool.false_eq_true] at h
        exact ih (attempt + 1) v h

theorem callWithRetry_ok_exists (mr : Nat) (f : Nat → Except HTTPError α)
    (j : Nat → ℚ) (v : α) (h : (callWithRetry mr f j).result = some (.ok v)) :
    ∃ n, f n = .ok v :=
  retryLoop_ok_exists mr f j (mr + 1) 0 v h

theorem callWithRetry_first_ok (mr : Nat) (f : Nat → Except HTTPError α)
    (j : Nat → ℚ) (v : α) (h : f 0 = .ok v) :
    callWithRetry mr f j = ⟨some (.ok v), [], 1⟩ := by
  simp [callWithRetry, retryLoop, h]

theorem batchGo_all_ok (oracle : List String → Nat → Except HTTPError (List (List ℝ)))
    (jitter : Nat → ℚ) (g : String → List ℝ)
    (hok : ∀ ts n, oracle ts n = .ok (ts.map g)) :
    ∀ cs : List (List String),
      batchGo oracle jitter cs =
        ⟨some (.ok (cs.flatten.map g)), cs, [], cs.length⟩ := by
  intro cs
  induction cs with
  | nil => rfl
  | cons c cs ih =>
    simp only [batchGo, callWithRetry_first_ok MAX_RETRIES (oracle c) jitter
      (c.map g) (hok c 0), ih]
    simp [List.flatten_cons, Nat.add_comm, Except.map]

theorem batchGo_err (oracle : List String → Nat → Except HTTPError (List (List ℝ)))
    (jitter : Nat → ℚ) :
    ∀ cs : List (List String),
      (∃ c ∈ cs, ∃ e, (callWithRetry MAX_RETRIES (oracle c) jitter).result
        = some (.error e)) →
      ∃ e', (batchGo oracle jitter cs).result = some (.error e') := by
  intro cs
  induction cs with
  | nil => intro h; simp at h
  | cons c cs ih =>
    intro h
    simp only [batchGo]
    cases ht : (callWithRetry MAX_RETRIES (oracle c) jitter).result with
    | none =>
      have := callWithRetry_isSome MAX_RETRIES (oracle c) jitter
      rw [ht] at this
      simp at this
    | some r =>
      cases r with
      | error e => exact ⟨e, rfl⟩
      | ok vs =>
        rcases h with ⟨c', hc', e, he⟩
        rcases List.mem_cons.mp hc' with hEq | hmem
        · subst hEq; rw [ht] at he; simp at he
        · rcases ih ⟨c', hmem, e, he⟩ with ⟨e', he'⟩
          exact ⟨e', by simp [he', Except.map]⟩

theorem batchGo_chunks_subset
    (oracle : List String → Nat → Except HTTPError (List (List ℝ)))
    (jitter : Nat → ℚ) :
    ∀ (cs : List (List String)) (c : List String),
      c ∈ (batchGo oracle jitter cs).chunksIssued → c ∈ cs := by
  intro cs
  induction cs with
  | nil => intro c h; simp [batchGo] at h
  | cons c0 cs ih =>
    intro c h
    simp only [batchGo] at h
    cases ht : (callWithRetry MAX_RETRIES (oracle c0) jitter).result with
    | none => rw [ht] at h; simp at h; simp [h]
    | some r =>
      cases r with
      | error e => rw [ht] at h; simp at h; simp [h]
      | ok vs =>
        rw [ht] at h
        simp only [List.mem_cons] at h
        rcases h with h | h
        · simp [h]
        · exact List.mem_cons_of_mem _ (ih c h)

theorem limitFor_pos (p : String) : 0 < limitFor p := by
  rw [limitFor]
  by_cases h1 : p = "elastic"
  · simp [BATCH_LIMITS, h1, List.find?]
  · by_cases h2 : p = "openai"
    · simp [BATCH_LIMITS, h1, h2, List.find?]
    · by_cases h3 : p = "cohere"
      · simp [BATCH_LIMITS, h1, h2, h3, List.find?]
      · simp [BATCH_LIMITS, List.find?,
          show ("elastic" == p) = false by simpa using fun h => h1 h.symm,
          show ("openai" == p) = false by simpa using fun h => h2 h.symm,
          show ("cohere" == p) = false by simpa using fun h => h3 h.symm]

theorem sumSquares_nil : sumSquares [] = 0 := rfl

theorem sumSquares_cons (a : ℝ) (l : List ℝ) :
    sumSquares (a :: l) = a * a + sumSquares l := by
  simp [sumSquares]

theorem sumSquares_nonneg (l : List ℝ) : 0 ≤ sumSquares l :=
  List.sum_nonneg (by
    intro x hx
    rcases List.mem_map.mp hx with ⟨v, _, rfl⟩
    exact mul_self_nonneg v)

theorem sumSquares_pos (l : List ℝ) (x : ℝ) (hx : x ∈ l) (hne : x ≠ 0) :
    0 < sumSquares l := by
  induction l with
  | nil => simp at hx
  | cons a t ih =>
    rw [sumSquares_cons]
    rcases List.mem_cons.mp hx with hEq | hmem
    · subst hEq
      have h1 : 0 < x * x := mul_self_pos.mpr hne
      have h2 : 0 ≤ sumSquares t := sumSquares_nonneg t
      linarith
    · have h1 : 0 ≤ a * a := mul_self_nonneg a
      have h2 : 0 < sumSquares t := ih hmem
      linarith

theorem sumSquares_map_div (l : List ℝ) (c : ℝ) :
    sumSquares (l.map (fun x => x / c)) = sumSquares l / (c * c) := by
  induction l with
  | nil => simp [sumSquares]
  | cons a t ih =>
    simp only [List.map_cons, sumSquares_cons, ih]
    rw [div_mul_div_comm, add_div]

end GenEmb

theorem hexVal_hexChar (n : Nat) (h : n < 16) : hexVal (hexChar n) = n := by
  interval_cases n <;> rfl

theorem parseHex_hexdigest (bs : List Nat) (hb : ∀ b ∈ bs, b < 256) :
    parseHex (hexdigest bs) = natOfBytes bs := by
  show (List.foldl _ 0 (bs.flatMap _)) = List.foldl _ 0 bs
  suffices H : ∀ (bs : List Nat) (acc : Nat), (∀ b ∈ bs, b < 256) →
      List.foldl (fun acc c => acc * 16 + hexVal c) acc
        (bs.flatMap (fun b => [hexChar (b / 16), hexChar (b % 16)])) =
      List.foldl (fun acc b => acc * 256 + b) acc bs by
    exact H bs 0 hb
  intro bs
  induction bs with
  | nil => intro acc _; rfl
  | cons b t ih =>
    intro acc hmem
    have hblt : b < 256 := hmem b (List.mem_cons_self b t)
    simp only [List.flatMap_cons, List.cons_append, List.nil_append,
      List.foldl_cons]
    rw [hexVal_hexChar (b / 16) (by omega), hexVal_hexChar (b % 16) (by omega),
      ih _ (fun x hx => hmem x (List.mem_cons_of_mem b hx))]
    congr 1
    omega

theorem digestBytes_lt (msg : List Nat) :
    ∀ b ∈ SHA256.digestBytes msg, b < 256 := by
  intro b hb
  rw [SHA256.digestBytes] at hb
  rcases List.mem_flatMap.mp hb with ⟨w, _, hw⟩
  simp only [SHA256.be32, List.mem_cons, List.not_mem_nil, or_false] at hw
  rcases hw with h | h | h | h <;> subst h <;>
    exact Nat.mod_lt _ (by norm_num)

/-! ## Claim theorems -/

set_option maxRecDepth 100000

/-- C5: `pseudo_vector(text, dims)` computes exactly the specified pipeline:
the seed is the SHA-256 digest of the UTF-8 encoding of `text`, read as a big
integer (the `int(hexdigest(), 16)` route of the source agrees with the big-endian
byte reading; the SHA-256 embedding is checked on the NIST vectors for `""`
and `"abc"`), reduced mod 2^32; the vector is the `dims` draws of a Gaussian
sampler seeded with that seed, each divided by the L2 norm of the vector; and the
output depends on nothing but `(text, dims)` — in particular only on the seed
derived from `text` — so two invocations with identical arguments are
identical.  (The Gaussian sampler itself, `random.Random(seed).gauss(0, 0.1)`,
is a fixed deterministic function of the seed, abstracted as `gauss`.) -/
theorem c5_pseudo_vector_algorithm :
    (∀ text : String,
      GenEmb.pseudoSeed text =
        natOfBytes (SHA256.digestBytes (utf8Bytes text)) % 2 ^ 32) ∧
    GenEmb.pseudoSeed "" = 0x7852b855 ∧
    GenEmb.pseudoSeed "abc" = 0xf20015ad ∧
    (∀ (gauss : Nat → Nat → ℝ) (text : String) (dims : Nat),
      GenEmb.pseudo_vector gauss text dims =
        ((List.range dims).map (fun k => gauss (GenEmb.pseudoSeed text) k)).map
          (fun v => v / Real.sqrt (sumSquares
            ((List.range dims).map (fun k => gauss (GenEmb.pseudoSeed text) k))))) ∧
    (∀ (gauss : Nat → Nat → ℝ) (t1 t2 : String) (dims : Nat),
      GenEmb.pseudoSeed t1 = GenEmb.pseudoSeed t2 →
      GenEmb.pseudo_vector gauss t1 dims = GenEmb.pseudo_vector gauss t2 dims) := by
  refine ⟨?_, by decide, by decide, fun gauss text dims => rfl, ?_⟩
  · intro text
    rw [GenEmb.pseudoSeed,
      parseHex_hexdigest _ (digestBytes_lt (utf8Bytes text))]
  · intro gauss t1 t2 dims hseed
    rw [GenEmb.pseudo_vector, GenEmb.pseudo_vector, hseed]

/-- C5 witness: the determinism conjunct applied at a concrete input. -/
theorem c5_witness :
    GenEmb.pseudo_vector (fun _ _ => (1 : ℝ)) "abc" 3 =
      GenEmb.pseudo_vector (fun _ _ => (1 : ℝ)) "abc" 3 :=
  c5_pseudo_vector_algorithm.2.2.2.2 (fun _ _ => (1 : ℝ)) "abc" "abc" 3 rfl

/-- C6: for `dims ≥ 1`, if the drawn Gaussian samples are not all zero, the
vector returned by `pseudo_vector` has L2 norm 1 within 1e-9 (the norm is
exactly 1 in the real-number model). -/
theorem c6_unit_norm (gauss : Nat → Nat → ℝ) (text : String) (dims : Nat)
    (h : ∃ k, k < dims ∧ gauss (GenEmb.pseudoSeed text) k ≠ 0) :
    |Real.sqrt (sumSquares (GenEmb.pseudo_vector gauss text dims)) - 1|
      ≤ 1 / 10 ^ 9 := by
  rcases h with ⟨k, hk, hne⟩
  have hmem : gauss (GenEmb.pseudoSeed text) k ∈
      (List.range dims).map (fun i => gauss (GenEmb.pseudoSeed text) i) :=
    List.mem_map.mpr ⟨k, List.mem_range.mpr hk, rfl⟩
  have hpos : 0 < sumSquares
      ((List.range dims).map (fun i => gauss (GenEmb.pseudoSeed text) i)) :=
    GenEmb.sumSquares_pos _ _ hmem hne
  have hvec : GenEmb.pseudo_vector gauss text dims =
      ((List.range dims).map (fun i => gauss (GenEmb.pseudoSeed text) i)).map
        (fun v => v / Real.sqrt (sumSquares
          ((List.range dims).map (fun i => gauss (GenEmb.pseudoSeed text) i)))) := rfl
  rw [hvec, GenEmb.sumSquares_map_div, Real.mul_self_sqrt hpos.le,
    div_self (ne_of_gt hpos), Real.sqrt_one]
  norm_num

/-- C6 witness: unit norm at a concrete nonzero sampler. -/
theorem c6_witness :
    |Real.sqrt (sumSquares (GenEmb.pseudo_vector (fun _ _ => (1 : ℝ)) "vigil" 3)) - 1|
      ≤ 1 / 10 ^ 9 :=
  c6_unit_norm (fun _ _ => (1 : ℝ)) "vigil" 3 ⟨0, by norm_num, one_ne_zero⟩

/-- C7: `generate_batch([])` returns `[]` in both pseudo and provider mode,
issuing no provider call and no sleep (the trace records no chunks, no
sleeps, zero calls), for every generator state. -/
theorem c7_empty_batch (gen : GenEmb.Generator) (gauss : Nat → Nat → ℝ)
    (oracle : List String → Nat → Except GenEmb.HTTPError (List (List ℝ)))
    (jitter : Nat → ℚ) :
    GenEmb.generate_batch gen gauss oracle jitter [] =
      ⟨some (.ok []), [], [], 0⟩ := rfl

/-- C8: the two `pseudo_vector` implementations agree on every explicit
`(text, dims)` — same seed, same draws, and `math.sqrt` agrees with `** 0.5`
on the sum of squares — but their default `dims` differ (384 vs 1024), so the
default-argument calls yield vectors of different lengths. -/
theorem c8_pseudo_vector_agreement (gauss : Nat → Nat → ℝ) (text : String) :
    (∀ dims : Nat, GenEmb.pseudo_vector gauss text dims =
      SeedRef.pseudo_vector gauss text dims) ∧
    (GenEmb.pseudo_vector gauss text).length = 384 ∧
    (SeedRef.pseudo_vector gauss text).length = 1024 ∧
    (GenEmb.pseudo_vector gauss text).length ≠
      (SeedRef.pseudo_vector gauss text).length := by
  refine ⟨fun dims => ?_, ?_, ?_, ?_⟩
  · show _ = _
    simp only [GenEmb.pseudo_vector, SeedRef.pseudo_vector, Real.sqrt_eq_rpow]
  · simp [GenEmb.pseudo_vector]
  · simp [SeedRef.pseudo_vector]
  · simp [GenEmb.pseudo_vector, SeedRef.pseudo_vector]

/-- C1: in provider mode, when every provider call returns exactly one vector
per request text in order (`ts ↦ ts.map g`), `generate_batch` returns
`texts.map g` — one vector per input, i-th vector for i-th text, across
chunk boundaries; and whenever the retry-wrapped call of some chunk raises, the
whole batch raises (the result is a single error, never a partial list). -/
theorem c1_order_preservation (gen : GenEmb.Generator) (gauss : Nat → Nat → ℝ)
    (jitter : Nat → ℚ) (texts : List String) (g : String → List ℝ)
    (hp : gen.usePseudo = false) :
    (∀ oracle : List String → Nat → Except GenEmb.HTTPError (List (List ℝ)),
      (∀ ts n, oracle ts n = .ok (ts.map g)) →
      (GenEmb.generate_batch gen gauss oracle jitter texts).result =
        some (.ok (texts.map g)) ∧
      (texts.map g).length = texts.length) ∧
    (∀ oracle : List String → Nat → Except GenEmb.HTTPError (List (List ℝ)),
      (∃ c ∈ GenEmb.chunkList (GenEmb.limitFor gen.provider) texts, ∃ e,
        (GenEmb.callWithRetry GenEmb.MAX_RETRIES (oracle c) jitter).result =
          some (.error e)) →
      ∃ e', (GenEmb.generate_batch gen gauss oracle jitter texts).result =
        some (.error e')) := by
  constructor
  · intro oracle hok
    refine ⟨?_, List.length_map _ _⟩
    rw [GenEmb.generate_batch]
    by_cases hto : texts.isEmpty
    · rw [if_pos hto]
      rw [List.isEmpty_iff.mp hto]
      rfl
    · rw [if_neg hto, if_neg (by rw [hp]; exact Bool.false_ne_true),
        GenEmb.batchGo_all_ok oracle jitter g hok,
        GenEmb.chunkList_flatten _ (GenEmb.limitFor_pos gen.provider)]
  · intro oracle hcerr
    rw [GenEmb.generate_batch]
    by_cases hto : texts.isEmpty
    · exfalso
      rcases hcerr with ⟨c, hc, _⟩
      rw [List.isEmpty_iff.mp hto] at hc
      simp [GenEmb.chunkList, GenEmb.chunkFuel] at hc
    · rw [if_neg hto, if_neg (by rw [hp]; exact Bool.false_ne_true)]
      exact GenEmb.batchGo_err oracle jitter _ hcerr

def w1gen : GenEmb.Generator :=
  { provider := "elastic", usePseudo := false,
    elasticUrl := some "http://localhost:9200", elasticApiKey := some "k" }

def w1g : String → List ℝ := fun _ => [1]

def w1texts : List String :=
  ["t01", "t02", "t03", "t04", "t05", "t06", "t07", "t08", "t09", "t10", "t11"]

/-- C1 witness: an 11-text batch against the elastic limit of 10 (two
chunks), with an always-succeeding order-preserving oracle. -/
theorem c1_witness :
    (GenEmb.generate_batch w1gen (fun _ _ => (0 : ℝ))
      (fun ts _ => .ok (ts.map w1g)) (fun _ => 0) w1texts).result =
      some (.ok (w1texts.map w1g)) :=
  ((c1_order_preservation w1gen (fun _ _ => (0 : ℝ)) (fun _ => 0) w1texts w1g
    rfl).1 (fun ts _ => .ok (ts.map w1g)) (fun _ _ => rfl)).1

/-- C2: the batch limits are elastic=10, openai=100, cohere=96, with 10 as
the default for any provider name absent from the table; and in provider
mode every chunk `generate_batch` hands to a provider call has at most the
limit of the active provider in text count, each chunk being one of the contiguous
slices whose in-order concatenation is exactly the input list. -/
theorem c2_chunk_sizing :
    GenEmb.limitFor "elastic" = 10 ∧ GenEmb.limitFor "openai" = 100 ∧
    GenEmb.limitFor "cohere" = 96 ∧
    (∀ p : String, p ≠ "elastic" → p ≠ "openai" → p ≠ "cohere" →
      GenEmb.limitFor p = 10) ∧
    (∀ (gen : GenEmb.Generator) (gauss : Nat → Nat → ℝ)
      (oracle : List String → Nat → Except GenEmb.HTTPError (List (List ℝ)))
      (jitter : Nat → ℚ) (texts : List String),
      gen.usePseudo = false →
      (∀ c ∈ (GenEmb.generate_batch gen gauss oracle jitter texts).chunksIssued,
        c.length ≤ GenEmb.limitFor gen.provider ∧
        c ∈ GenEmb.chunkList (GenEmb.limitFor gen.provider) texts) ∧
      (GenEmb.chunkList (GenEmb.limitFor gen.provider) texts).flatten = texts) := by
  refine ⟨rfl, rfl, rfl, ?_, ?_⟩
  · intro p h1 h2 h3
    rw [GenEmb.limitFor]
    simp [GenEmb.BATCH_LIMITS, List.find?,
      show ("elastic" == p) = false by simpa using fun h => h1 h.symm,
      show ("openai" == p) = false by simpa using fun h => h2 h.symm,
      show ("cohere" == p) = false by simpa using fun h => h3 h.symm]
  · intro gen gauss oracle jitter texts hp
    constructor
    · intro c hc
      rw [GenEmb.generate_batch] at hc
      by_cases hto : texts.isEmpty
      · rw [if_pos hto] at hc
        simp at hc
      · rw [if_neg hto, if_neg (by rw [hp]; exact Bool.false_ne_true)] at hc
        have hmem := GenEmb.batchGo_chunks_subset oracle jitter _ c hc
        exact ⟨GenEmb.chunkList_mem_length _ hmem, hmem⟩
    · exact GenEmb.chunkList_flatten _ (GenEmb.limitFor_pos gen.provider) texts

/-- C2 witness: the default limit applied to an unknown provider name. -/
theorem c2_witness : GenEmb.limitFor "bogus" = 10 :=
  c2_chunk_sizing.2.2.2.1 "bogus" (by decide) (by decide) (by decide)

/-- C3: `_call_with_retry` with `max_retries = 3` retries exactly the calls
failing with 429 or a 5xx status: a call failing twice with 429 then
succeeding returns the success after exactly two sleeps (three attempts); an
always-429 call raises after exactly 4 attempts; a 5xx failure is retried; a
non-retryable status raises immediately with zero sleeps after one attempt;
and every sleep before retry `attempt+1` lasts
`base_delay * 2^attempt + uniform_random(0, base_delay)` seconds with
`base_delay = 0.5` (the `jitter attempt * 0.5` term, `jitter ∈ [0, 1)` being
the `random.random()` draw). -/
theorem c3_retry_policy (jitter : Nat → ℚ)
    (fa fb fc fd : Nat → Except GenEmb.HTTPError (List (List ℝ)))
    (v : List (List ℝ)) (e e5 : GenEmb.HTTPError)
    (hfa0 : fa 0 = .error ⟨429⟩) (hfa1 : fa 1 = .error ⟨429⟩)
    (hfa2 : fa 2 = .ok v)
    (hfb : ∀ n, fb n = .error ⟨429⟩)
    (he : ¬(e.code = 429 ∨ (500 ≤ e.code ∧ e.code < 600)))
    (hfc0 : fc 0 = .error e)
    (he5 : 500 ≤ e5.code ∧ e5.code < 600)
    (hfd0 : fd 0 = .error e5) (hfd1 : fd 1 = .ok v) :
    GenEmb.callWithRetry GenEmb.MAX_RETRIES fa jitter =
      ⟨some (.ok v),
       [GenEmb.BASE_DELAY_S * 2 ^ 0 + jitter 0 * GenEmb.BASE_DELAY_S,
        GenEmb.BASE_DELAY_S * 2 ^ 1 + jitter 1 * GenEmb.BASE_DELAY_S], 3⟩ ∧
    GenEmb.callWithRetry GenEmb.MAX_RETRIES fb jitter =
      ⟨some (.error ⟨429⟩),
       [GenEmb.BASE_DELAY_S * 2 ^ 0 + jitter 0 * GenEmb.BASE_DELAY_S,
        GenEmb.BASE_DELAY_S * 2 ^ 1 + jitter 1 * GenEmb.BASE_DELAY_S,
        GenEmb.BASE_DELAY_S * 2 ^ 2 + jitter 2 * GenEmb.BASE_DELAY_S], 4⟩ ∧
    GenEmb.callWithRetry GenEmb.MAX_RETRIES fc jitter =
      ⟨some (.error e), [], 1⟩ ∧
    GenEmb.callWithRetry GenEmb.MAX_RETRIES fd jitter =
      ⟨some (.ok v),
       [GenEmb.BASE_DELAY_S * 2 ^ 0 + jitter 0 * GenEmb.BASE_DELAY_S], 2⟩ := by
  have hre : GenEmb.retryable e = false := by
    cases hb : GenEmb.retryable e with
    | false => rfl
    | true => exact absurd ((GenEmb.retryable_iff e).mp hb) he
  have hre5 : GenEmb.retryable e5 = true :=
    (GenEmb.retryable_iff e5).mpr (Or.inr he5)
  refine ⟨?_, ?_, ?_, ?_⟩
  · simp [GenEmb.callWithRetry, GenEmb.MAX_RETRIES, GenEmb.retryLoop,
      hfa0, hfa1, hfa2, GenEmb.retryable]
  · simp [GenEmb.callWithRetry, GenEmb.MAX_RETRIES, GenEmb.retryLoop,
      hfb, GenEmb.retryable]
  · simp [GenEmb.callWithRetry, GenEmb.MAX_RETRIES, GenEmb.retryLoop,
      hfc0, hre]
  · simp [GenEmb.callWithRetry, GenEmb.MAX_RETRIES, GenEmb.retryLoop,
      hfd0, hfd1, hre5]

def w3fa : Nat → Except GenEmb.HTTPError (List (List ℝ))
  | 0 => .error ⟨429⟩
  | 1 => .error ⟨429⟩
  | _ => .ok [[1]]

def w3fb : Nat → Except GenEmb.HTTPError (List (List ℝ)) :=
  fun _ => .error ⟨429⟩

def w3fc : Nat → Except GenEmb.HTTPError (List (List ℝ)) :=
  fun _ => .error ⟨401⟩

def w3fd : Nat → Except GenEmb.HTTPError (List (List ℝ))
  | 0 => .error ⟨503⟩
  | _ => .ok [[1]]

/-- C3 witness: the four retry scenarios at concrete call behaviours
(429/429/success, always-429, 401, 503/success) with zero jitter. -/
theorem c3_witness :
    GenEmb.callWithRetry GenEmb.MAX_RETRIES w3fa (fun _ => 0) =
      ⟨some (.ok [[1]]),
       [GenEmb.BASE_DELAY_S * 2 ^ 0 + (fun _ => (0 : ℚ)) 0 * GenEmb.BASE_DELAY_S,
        GenEmb.BASE_DELAY_S * 2 ^ 1 + (fun _ => (0 : ℚ)) 1 * GenEmb.BASE_DELAY_S], 3⟩ ∧
    GenEmb.callWithRetry GenEmb.MAX_RETRIES w3fb (fun _ => 0) =
      ⟨some (.error ⟨429⟩),
       [GenEmb.BASE_DELAY_S * 2 ^ 0 + (fun _ => (0 : ℚ)) 0 * GenEmb.BASE_DELAY_S,
        GenEmb.BASE_DELAY_S * 2 ^ 1 + (fun _ => (0 : ℚ)) 1 * GenEmb.BASE_DELAY_S,
        GenEmb.BASE_DELAY_S * 2 ^ 2 + (fun _ => (0 : ℚ)) 2 * GenEmb.BASE_DELAY_S], 4⟩ ∧
    GenEmb.callWithRetry GenEmb.MAX_RETRIES w3fc (fun _ => 0) =
      ⟨some (.error ⟨401⟩), [], 1⟩ ∧
    GenEmb.callWithRetry GenEmb.MAX_RETRIES w3fd (fun _ => 0) =
      ⟨some (.ok [[1]]),
       [GenEmb.BASE_DELAY_S * 2 ^ 0 + (fun _ => (0 : ℚ)) 0 * GenEmb.BASE_DELAY_S], 2⟩ :=
  c3_retry_policy (fun _ => 0) w3fa w3fb w3fc w3fd [[1]] ⟨401⟩ ⟨503⟩
    rfl rfl rfl (fun _ => rfl) (by decide) rfl (by decide) rfl rfl

/-- C9: in provider mode, `generate(text)` calls the provider exactly once
with no retry wrapper: any HTTP failure — including a retryable 429/5xx —
propagates immediately, with one provider call, zero sleeps and zero
retries; whereas `generate_batch` on the same single text and the same
call behaviour recovers from a retryable first failure by retrying (one
sleep, then the successful result). -/
theorem c9_generate_no_retry (gen : GenEmb.Generator) (gauss : Nat → Nat → ℝ)
    (oracle : List String → Nat → Except GenEmb.HTTPError (List (List ℝ)))
    (jitter : Nat → ℚ) (text : String) (e : GenEmb.HTTPError)
    (g : String → List ℝ)
    (hp : gen.usePseudo = false)
    (h0 : oracle [text] 0 = .error e) :
    GenEmb.generate gen gauss oracle text = ⟨.error e, [[text]], [], 1⟩ ∧
    ((e.code = 429 ∨ (500 ≤ e.code ∧ e.code < 600)) →
      oracle [text] 1 = .ok ([text].map g) →
      (GenEmb.generate_batch gen gauss oracle jitter [text]).result =
        some (.ok ([text].map g)) ∧
      (GenEmb.generate_batch gen gauss oracle jitter [text]).sleeps =
        [GenEmb.BASE_DELAY_S * 2 ^ 0 + jitter 0 * GenEmb.BASE_DELAY_S]) := by
  constructor
  · rw [GenEmb.generate, if_neg (by rw [hp]; exact Bool.false_ne_true), h0]
  · intro hre h1
    have hret : GenEmb.retryable e = true := (GenEmb.retryable_iff e).mpr hre
    have hbatch : GenEmb.generate_batch gen gauss oracle jitter [text] =
        GenEmb.batchGo oracle jitter [[text]] := by
      rw [GenEmb.generate_batch,
        if_neg (by simp), if_neg (by rw [hp]; exact Bool.false_ne_true),
        GenEmb.chunkList_singleton _ (GenEmb.limitFor_pos gen.provider)]
    have hretry : GenEmb.callWithRetry GenEmb.MAX_RETRIES (oracle [text]) jitter =
        ⟨some (.ok ([text].map g)),
         [GenEmb.BASE_DELAY_S * 2 ^ 0 + jitter 0 * GenEmb.BASE_DELAY_S], 2⟩ := by
      simp [GenEmb.callWithRetry, GenEmb.MAX_RETRIES, GenEmb.retryLoop,
        h0, h1, hret]
    rw [hbatch]
    simp [GenEmb.batchGo, hretry, Except.map]

def w9gen : GenEmb.Generator :=
  { provider := "openai", usePseudo := false, openaiApiKey := some "k" }

def w9oracle : List String → Nat → Except GenEmb.HTTPError (List (List ℝ)) :=
  fun ts n => if n = 0 then .error ⟨429⟩ else .ok (ts.map (fun _ => [1]))

/-- C9 witness: a 429 on the one `generate` call propagates with one call
and no sleep. -/
theorem c9_witness :
    GenEmb.generate w9gen (fun _ _ => (0 : ℝ)) w9oracle "a" =
      ⟨.error ⟨429⟩, [["a"]], [], 1⟩ :=
  (c9_generate_no_retry w9gen (fun _ _ => (0 : ℝ)) w9oracle (fun _ => 0) "a"
    ⟨429⟩ (fun _ => [1]) rfl rfl).1

theorem initGenerator_empty (providerArg : Option String) (env : GenEmb.Env)
    (h : GenEmb.effProvider providerArg env = "") :
    GenEmb.initGenerator providerArg env =
      .ok { provider := "", usePseudo := true } := by
  simp [GenEmb.initGenerator, h]

theorem initGenerator_elastic (providerArg : Option String) (env : GenEmb.Env)
    (h : GenEmb.effProvider providerArg env = "elastic") :
    GenEmb.initGenerator providerArg env =
      if !pyTruthy env.elasticUrl || !pyTruthy env.elasticApiKey then
        .error GenEmb.elasticMissingMsg
      else
        .ok { provider := "elastic", usePseudo := false,
              elasticUrl := env.elasticUrl, elasticApiKey := env.elasticApiKey } := by
  simp [GenEmb.initGenerator, h]

theorem initGenerator_openai (providerArg : Option String) (env : GenEmb.Env)
    (h : GenEmb.effProvider providerArg env = "openai") :
    GenEmb.initGenerator providerArg env =
      if !pyTruthy env.openaiApiKey then
        .error GenEmb.openaiMissingMsg
      else
        .ok { provider := "openai", usePseudo := false,
              openaiApiKey := env.openaiApiKey } := by
  simp [GenEmb.initGenerator, h]

theorem initGenerator_cohere (providerArg : Option String) (env : GenEmb.Env)
    (h : GenEmb.effProvider providerArg env = "cohere") :
    GenEmb.initGenerator providerArg env =
      if !pyTruthy env.cohereApiKey then
        .error GenEmb.cohereMissingMsg
      else
        .ok { provider := "cohere", usePseudo := false,
              cohereApiKey := env.cohereApiKey } := by
  simp [GenEmb.initGenerator, h]

theorem initGenerator_unknown (providerArg : Option String) (env : GenEmb.Env)
    (h0 : GenEmb.effProvider providerArg env ≠ "")
    (h1 : GenEmb.effProvider providerArg env ≠ "elastic")
    (h2 : GenEmb.effProvider providerArg env ≠ "openai")
    (h3 : GenEmb.effProvider providerArg env ≠ "cohere") :
    GenEmb.initGenerator providerArg env =
      .error (GenEmb.unknownProviderMsg (GenEmb.effProvider providerArg env)) := by
  simp [GenEmb.initGenerator, h0, h1, h2, h3]

theorem unknownMsg_names_value (p : String) :
    ∃ pre post : String, pre ++ p ++ post = GenEmb.unknownProviderMsg p :=
  ⟨"Unknown provider \"", "\". Supported: elastic, openai, cohere", rfl⟩

theorem unknownMsg_names_set (p : String) :
    ∃ pre post : String,
      pre ++ "elastic, openai, cohere" ++ post = GenEmb.unknownProviderMsg p := by
  refine ⟨"Unknown provider \"" ++ p ++ "\". Supported: ", "", ?_⟩
  apply String.ext
  simp only [GenEmb.unknownProviderMsg, String.data_append, List.append_assoc]
  congr 1

theorem elasticMsg_names_url :
    ∃ pre post : String, pre ++ "ELASTIC_URL" ++ post = GenEmb.elasticMissingMsg :=
  ⟨"Elastic provider requires ", " and ELASTIC_API_KEY", by decide⟩

theorem elasticMsg_names_key :
    ∃ pre post : String, pre ++ "ELASTIC_API_KEY" ++ post = GenEmb.elasticMissingMsg :=
  ⟨"Elastic provider requires ELASTIC_URL and ", "", by decide⟩

theorem openaiMsg_names_key :
    ∃ pre post : String, pre ++ "OPENAI_API_KEY" ++ post = GenEmb.openaiMissingMsg :=
  ⟨"OpenAI provider requires ", "", by decide⟩

theorem cohereMsg_names_key :
    ∃ pre post : String, pre ++ "COHERE_API_KEY" ++ post = GenEmb.cohereMissingMsg :=
  ⟨"Cohere provider requires ", "", by decide⟩

/-- C4: construction fails exactly when the effective (lowered, stripped)
provider name is non-empty and either unrecognized or missing a required
credential; an empty effective name always succeeds in pseudo mode.  The
unsupported-provider error contains the offending name and lists the
recognized set; each missing-credential error names the required
credential field(s); all of this happens in `__init__`, before any network
call. -/
theorem c4_construction_validation (providerArg : Option String)
    (env : GenEmb.Env) :
    (GenEmb.effProvider providerArg env = "" →
      GenEmb.initGenerator providerArg env =
        .ok { provider := "", usePseudo := true }) ∧
    ((∃ msg, GenEmb.initGenerator providerArg env = .error msg) ↔
      (GenEmb.effProvider providerArg env ≠ "" ∧
        (GenEmb.effProvider providerArg env ∉ (["elastic", "openai", "cohere"] : List String) ∨
         (GenEmb.effProvider providerArg env = "elastic" ∧
           (pyTruthy env.elasticUrl = false ∨ pyTruthy env.elasticApiKey = false)) ∨
         (GenEmb.effProvider providerArg env = "openai" ∧
           pyTruthy env.openaiApiKey = false) ∨
         (GenEmb.effProvider providerArg env = "cohere" ∧
           pyTruthy env.cohereApiKey = false)))) ∧
    (GenEmb.effProvider providerArg env ≠ "" →
      GenEmb.effProvider providerArg env ∉ (["elastic", "openai", "cohere"] : List String) →
      GenEmb.initGenerator providerArg env =
        .error (GenEmb.unknownProviderMsg (GenEmb.effProvider providerArg env)) ∧
      (∃ pre post : String, pre ++ GenEmb.effProvider providerArg env ++ post =
        GenEmb.unknownProviderMsg (GenEmb.effProvider providerArg env)) ∧
      (∃ pre post : String, pre ++ "elastic, openai, cohere" ++ post =
        GenEmb.unknownProviderMsg (GenEmb.effProvider providerArg env))) ∧
    (GenEmb.effProvider providerArg env = "elastic" →
      (pyTruthy env.elasticUrl = false ∨ pyTruthy env.elasticApiKey = false) →
      GenEmb.initGenerator providerArg env = .error GenEmb.elasticMissingMsg ∧
      (∃ pre post : String, pre ++ "ELASTIC_URL" ++ post = GenEmb.elasticMissingMsg) ∧
      (∃ pre post : String, pre ++ "ELASTIC_API_KEY" ++ post = GenEmb.elasticMissingMsg)) ∧
    (GenEmb.effProvider providerArg env = "openai" →
      pyTruthy env.openaiApiKey = false →
      GenEmb.initGenerator providerArg env = .error GenEmb.openaiMissingMsg ∧
      (∃ pre post : String, pre ++ "OPENAI_API_KEY" ++ post = GenEmb.openaiMissingMsg)) ∧
    (GenEmb.effProvider providerArg env = "cohere" →
      pyTruthy env.cohereApiKey = false →
      GenEmb.initGenerator providerArg env = .error GenEmb.cohereMissingMsg ∧
      (∃ pre post : String, pre ++ "COHERE_API_KEY" ++ post = GenEmb.cohereMissingMsg)) := by
  by_cases h0 : GenEmb.effProvider providerArg env = ""
  · refine ⟨fun _ => initGenerator_empty providerArg env h0, ?_, ?_, ?_, ?_, ?_⟩
    · rw [initGenerator_empty providerArg env h0]
      simp [h0]
    · intro hne; exact absurd h0 hne
    · intro hel; rw [h0] at hel; exact absurd hel (by decide)
    · intro hop; rw [h0] at hop; exact absurd hop (by decide)
    · intro hco; rw [h0] at hco; exact absurd hco (by decide)
  by_cases h1 : GenEmb.effProvider providerArg env = "elastic"
  · have hinit := initGenerator_elastic providerArg env h1
    refine ⟨fun hemp => absurd hemp h0, ?_, ?_, ?_, ?_, ?_⟩
    · rw [hinit]
      by_cases hm : (!pyTruthy env.elasticUrl || !pyTruthy env.elasticApiKey) = true
      · rw [if_pos hm]
        simp only [Bool.or_eq_true, Bool.not_eq_eq_eq_not, Bool.not_true] at hm
        simp [h0, h1, hm]
      · rw [if_neg hm]
        simp only [Bool.or_eq_true, Bool.not_eq_eq_eq_not, Bool.not_true,
          not_or] at hm
        constructor
        · rintro ⟨msg, hmsg⟩; exact absurd hmsg (by simp)
        · rintro ⟨-, habs | ⟨-, hmiss⟩ | ⟨hop, -⟩ | ⟨hco, -⟩⟩
          · exact (habs (by simp [h1])).elim
          · rcases hmiss with hu | hk
            · rw [hu] at hm; exact absurd hm.1 (by simp)
            · rw [hk] at hm; exact absurd hm.2 (by simp)
          · rw [h1] at hop; exact absurd hop (by decide)
          · rw [h1] at hco; exact absurd hco (by decide)
    · intro _ hnotin; exact absurd (by simp [h1]) hnotin
    · intro _ hmiss
      have hm : (!pyTruthy env.elasticUrl || !pyTruthy env.elasticApiKey) = true := by
        rcases hmiss with hu | hk
        · simp [hu]
        · simp [hk]
      exact ⟨by rw [hinit, if_pos hm], elasticMsg_names_url, elasticMsg_names_key⟩
    · intro hop; rw [h1] at hop; exact absurd hop (by decide)
    · intro hco; rw [h1] at hco; exact absurd hco (by decide)
  by_cases h2 : GenEmb.effProvider providerArg env = "openai"
  · have hinit := initGenerator_openai providerArg env h2
    refine ⟨fun hemp => absurd hemp h0, ?_, ?_, ?_, ?_, ?_⟩
    · rw [hinit]
      by_cases hm : (!pyTruthy env.openaiApiKey) = true
      · rw [if_pos hm]
        simp only [Bool.not_eq_eq_eq_not, Bool.not_true] at hm
        simp [h0, h2, hm]
      · rw [if_neg hm]
        simp only [Bool.not_eq_eq_eq_not, Bool.not_true] at hm
        constructor
        · rintro ⟨msg, hmsg⟩; exact absurd hmsg (by simp)
        · rintro ⟨-, habs | ⟨hel, -⟩ | ⟨-, hmiss⟩ | ⟨hco, -⟩⟩
          · exact (habs (by simp [h2])).elim
          · rw [h2] at hel; exact absurd hel (by decide)
          · rw [hmiss] at hm; exact absurd hm (by simp)
          · rw [h2] at hco; exact absurd hco (by decide)
    · intro _ hnotin; exact absurd (by simp [h2]) hnotin
    · intro hel; rw [h2] at hel; exact absurd hel (by decide)
    · intro _ hmiss
      exact ⟨by rw [hinit, if_pos (by simp [hmiss])], openaiMsg_names_key⟩
    · intro hco; rw [h2] at hco; exact absurd hco (by decide)
  by_cases h3 : GenEmb.effProvider providerArg env = "cohere"
  · have hinit := initGenerator_cohere providerArg env h3
    refine ⟨fun hemp => absurd hemp h0, ?_, ?_, ?_, ?_, ?_⟩
    · rw [hinit]
      by_cases hm : (!pyTruthy env.cohereApiKey) = true
      · rw [if_pos hm]
        simp only [Bool.not_eq_eq_eq_not, Bool.not_true] at hm
        simp [h0, h3, hm]
      · rw [if_neg hm]
        simp only [Bool.not_eq_eq_eq_not, Bool.not_true] at hm
        constructor
        · rintro ⟨msg, hmsg⟩; exact absurd hmsg (by simp)
        · rintro ⟨-, habs | ⟨hel, -⟩ | ⟨hop, -⟩ | ⟨-, hmiss⟩⟩
          · exact (habs (by simp [h3])).elim
          · rw [h3] at hel; exact absurd hel (by decide)
          · rw [h3] at hop; exact absurd hop (by decide)
          · rw [hmiss] at hm; exact absurd hm (by simp)
    · intro _ hnotin; exact absurd (by simp [h3]) hnotin
    · intro hel; rw [h3] at hel; exact absurd hel (by decide)
    · intro hop; rw [h3] at hop; exact absurd hop (by decide)
    · intro _ hmiss
      exact ⟨by rw [hinit, if_pos (by simp [hmiss])], cohereMsg_names_key⟩
  · have hinit := initGenerator_unknown providerArg env h0 h1 h2 h3
    have hnotin : GenEmb.effProvider providerArg env ∉
        (["elastic", "openai", "cohere"] : List String) := by
      simp [h1, h2, h3]
    refine ⟨fun hemp => absurd hemp h0, ?_, ?_, ?_, ?_, ?_⟩
    · rw [hinit]
      simp only [Except.error.injEq, exists_eq']
      exact iff_of_true trivial ⟨h0, Or.inl hnotin⟩
    · intro _ _
      exact ⟨hinit, unknownMsg_names_value _, unknownMsg_names_set _⟩
    · intro hel; exact absurd hel h1
    · intro hop; exact absurd hop h2
    · intro hco; exact absurd hco h3

def w4env : GenEmb.Env := {}

/-- C4 witness: provider name `"bogus"` is rejected with the
unsupported-provider error. -/
theorem c4_witness :
    GenEmb.initGenerator (some "bogus") w4env =
      .error (GenEmb.unknownProviderMsg (GenEmb.effProvider (some "bogus") w4env)) :=
  ((c4_construction_validation (some "bogus") w4env).2.2.1
    (by decide) (by decide)).1

/-- C10: every generator that construction accepts in provider mode stores
one of the three recognized provider names, so the three-way dispatch of
`_call_provider` always takes a branch — the `None` fall-through is unreachable for
a successfully constructed provider-mode generator. -/
theorem c10_dispatch_total (providerArg : Option String) (env : GenEmb.Env)
    (gen : GenEmb.Generator)
    (hok : GenEmb.initGenerator providerArg env = .ok gen)
    (hp : gen.usePseudo = false) :
    (gen.provider = "elastic" ∨ gen.provider = "openai" ∨
      gen.provider = "cohere") ∧
    ∀ (α : Type) (eE eO eC : List String → α) (texts : List String),
      (GenEmb.callProviderDispatch gen.provider eE eO eC texts).isSome = true := by
  have hprov : gen.provider = "elastic" ∨ gen.provider = "openai" ∨
      gen.provider = "cohere" := by
    by_cases h0 : GenEmb.effProvider providerArg env = ""
    · rw [initGenerator_empty providerArg env h0] at hok
      cases hok
      exact absurd hp (by simp)
    by_cases h1 : GenEmb.effProvider providerArg env = "elastic"
    · rw [initGenerator_elastic providerArg env h1] at hok
      by_cases hm : (!pyTruthy env.elasticUrl || !pyTruthy env.elasticApiKey) = true
      · rw [if_pos hm] at hok; cases hok
      · rw [if_neg hm] at hok; cases hok; left; rfl
    by_cases h2 : GenEmb.effProvider providerArg env = "openai"
    · rw [initGenerator_openai providerArg env h2] at hok
      by_cases hm : (!pyTruthy env.openaiApiKey) = true
      · rw [if_pos hm] at hok; cases hok
      · rw [if_neg hm] at hok; cases hok; right; left; rfl
    by_cases h3 : GenEmb.effProvider providerArg env = "cohere"
    · rw [initGenerator_cohere providerArg env h3] at hok
      by_cases hm : (!pyTruthy env.cohereApiKey) = true
      · rw [if_pos hm] at hok; cases hok
      · rw [if_neg hm] at hok; cases hok; right; right; rfl
    · rw [initGenerator_unknown providerArg env h0 h1 h2 h3] at hok
      cases hok
  refine ⟨hprov, ?_⟩
  intro α eE eO eC texts
  rcases hprov with h | h | h <;> simp [GenEmb.callProviderDispatch, h]

def w10env : GenEmb.Env :=
  { elasticUrl := some "http://localhost:9200", elasticApiKey := some "k" }

def w10gen : GenEmb.Generator :=
  { provider := "elastic", usePseudo := false,
    elasticUrl := some "http://localhost:9200", elasticApiKey := some "k" }

/-- C10 witness: a concrete elastic-mode construction and its dispatch. -/
theorem c10_witness :
    (w10gen.provider = "elastic" ∨ w10gen.provider = "openai" ∨
      w10gen.provider = "cohere") ∧
    ∀ (α : Type) (eE eO eC : List String → α) (texts : List String),
      (GenEmb.callProviderDispatch w10gen.provider eE eO eC texts).isSome = true :=
  c10_dispatch_total (some "elastic") w10env w10gen
    (by rw [initGenerator_elastic (some "elastic") w10env (by decide)]; rfl) rfl

end Vigil
